import Mathlib

/-!
Verification of the Rataitosk axis-scoring framework.

This file is a shallow embedding of the core of the Rataitosk document
comparison tool: the sentence chunker (core/chunking.py), the lazy
embedding-model singleton (core/embedding.py), the four axis scoring
strategies (axes/operational_grounding.py, axes/transformational_vision.py,
axes/temporal_positioning.py, axes/thematic_similarity.py) and the scoring
orchestrator (core/engine.py).

Modelling conventions:
- Python floats are idealized as rationals; Python round(x, 2) is modelled
  as exact round-half-even at two decimal places.
- External collaborators are parameters of the embedding: the NLTK sentence
  tokenizer is a parameter of chunk_text; the SentenceTransformer model and
  the sklearn cosine_similarity kernel are fields of an EmbedCtx record
  (the spec requires encode to be deterministic and order preserving, so a
  batch encode is a map of a per-text encode). Cosine similarity of raw
  vectors is irrational-valued in general, so it is kept abstract; the
  claims below concern the aggregation formulas built on top of it.
- Dynamic axis-module resolution (importlib) and PDF chunking are
  parameters of compare_documents, each returning Except to model the
  exceptions the engine catches.
-/

namespace Rataitosk

/-! ### config/settings.py -/

/-- settings.EMBEDDING_MODEL_NAME from config/settings.py. -/
def EMBEDDING_MODEL_NAME : String :=
  "sentence-transformers/paraphrase-multilingual-MiniLM-L12-v2"

/-- settings.CHUNK_SIZE from config/settings.py: sentences per chunk. -/
def CHUNK_SIZE : Nat := 4

/-- settings.MIN_CHUNK_LENGTH from config/settings.py: minimum characters
allowed in a chunk. -/
def MIN_CHUNK_LENGTH : Nat := 100

/-! ### core/chunking.py -/

/-- Python str.strip(): drop whitespace from both ends, modelled on the
character list of the string. -/
def pyStrip (s : String) : String :=
  String.mk (((s.data.dropWhile Char.isWhitespace).reverse.dropWhile
    Char.isWhitespace).reverse)

/-- Python str.lower(), modelled on the character list of the string. -/
def pyLower (s : String) : String :=
  String.mk (s.data.map Char.toLower)

/-- The consecutive sentence windows taken by the loop
for i in range(0, len(sentences), chunk_size): sentences[i:i+chunk_size]
in chunk_text: for k at least 1 the loop body runs ceil(len / k) times and
the i-th iteration slices the k sentences starting at offset i * k. -/
def sentWindows {α : Type} (k : Nat) (l : List α) : List (List α) :=
  (List.range ((l.length + k - 1) / k)).map (fun i => (l.drop (i * k)).take k)

/-- The body of one iteration of the chunk_text loop: drop blank sentences,
join the survivors with single spaces, strip, and keep the chunk only when
its character length reaches MIN_CHUNK_LENGTH. Returns none when the
iteration appends nothing. -/
def buildChunk (window : List String) : Option String :=
  let non_empty_sentences := window.filter (fun s => pyStrip s != "")
  if non_empty_sentences.isEmpty then none
  else
    let chunk := pyStrip (String.intercalate " " non_empty_sentences)
    if MIN_CHUNK_LENGTH ≤ chunk.length then some chunk else none

/-- chunk_text from core/chunking.py. The NLTK sentence tokenizer
(sent_tokenize) is an external collaborator, passed as a parameter; the
source calls this with chunk_size = settings.CHUNK_SIZE. -/
def chunk_text (sent_tokenize : String → List String) (text : String)
    (chunk_size : Nat) : List String :=
  (sentWindows chunk_size (sent_tokenize text)).filterMap buildChunk

/-! ### Numeric model: np.mean and Python round(x, 2) -/

/-- np.mean over a nonempty list of rationals (sum divided by length). -/
def meanQ (l : List ℚ) : ℚ := l.sum / l.length

/-- Round-half-even to the nearest integer: the idealization of Python
round() on exact rational values. -/
def roundHalfEven (q : ℚ) : ℤ :=
  let f := ⌊q⌋
  let r := q - f
  if r < 1/2 then f
  else if 1/2 < r then f + 1
  else if Even f then f else f + 1

/-- Python round(x, 2): round-half-even at two decimal places. -/
def round2 (q : ℚ) : ℚ := (roundHalfEven (q * 100) : ℚ) / 100

/-! ### Embedding context (external model and similarity kernel) -/

/-- An embedding vector; floats idealized as rationals. -/
abbrev Vec := List ℚ

/-- The external numeric collaborators of the axis modules: the
SentenceTransformer returned by core.embedding.get_model (encode is
deterministic and order preserving per spec section 4.2, so a batch encode
of a list is the map of a per-text encode) and the sklearn
cosine_similarity kernel applied to one row of each matrix. -/
structure EmbedCtx where
  encode : String → Vec
  cosine_similarity : Vec → Vec → ℚ

/-- One per-axis result record, modelling the dicts built by the axis
score functions and by the engine; absent dict keys are none. -/
structure AxisResult where
  axis : String
  score : Option ℚ
  doc1 : String
  doc2 : String
  error : Option String := none
  anchor : Option String := none
  anchors : Option String := none
  method : Option String := none
  chunks1 : Option Nat := none
  chunks2 : Option Nat := none
  interpretation : Option String := none
  top_chunks : Option (List (String × String × ℚ)) := none
  bottom_chunks : Option (List (String × String × ℚ)) := none
  id : Option String := none
  axis_name : Option String := none
deriving DecidableEq

/-! ### axes/operational_grounding.py -/

/-- The anchor constant of axes/operational_grounding.py. -/
def OPERATIONAL_GROUNDING_ANCHOR : String :=
  "Our current capabilities and ongoing activities form the basis for the priorities we put forward. Existing processes, resources, and areas of expertise support the work already in progress. We focus on actions that can be implemented within today\x27s structures. Our direction builds on what the organisation can deliver in practice at present."

/-- score from axes/operational_grounding.py (single-anchor comparative). -/
def operational_grounding.score (ctx : EmbedCtx)
    (doc1_chunks doc2_chunks : List String) (name1 name2 : String) : AxisResult :=
  if doc1_chunks.isEmpty || doc2_chunks.isEmpty then
    { axis := "Operational Grounding", score := none, doc1 := name1, doc2 := name2,
      error := some "One or both documents have no chunks." }
  else
    let anchor_vector := ctx.encode OPERATIONAL_GROUNDING_ANCHOR
    let emb1 := doc1_chunks.map ctx.encode
    let emb2 := doc2_chunks.map ctx.encode
    let sim1 := meanQ (emb1.map (fun e => ctx.cosine_similarity e anchor_vector))
    let sim2 := meanQ (emb2.map (fun e => ctx.cosine_similarity e anchor_vector))
    let relative_score := (sim1 - sim2) * 100
    { axis := "Operational Grounding", score := some (round2 relative_score),
      doc1 := name1, doc2 := name2,
      anchor := some "Present capabilities and operational feasibility",
      method := some "single_anchor_comparative",
      chunks1 := some doc1_chunks.length, chunks2 := some doc2_chunks.length,
      interpretation := some "Positive: Doc1 more operationally grounded language. Negative: Doc2 more operationally grounded language. Near zero: Similar operational emphasis. Measures language patterns, not actual feasibility." }

/-! ### axes/transformational_vision.py -/

/-- The anchor constant of axes/transformational_vision.py. -/
def TRANSFORMATIONAL_VISION_ANCHOR : String :=
  "We aim to explore new directions that extend beyond our current capabilities. Emerging opportunities shape the areas we prepare to develop over time. Future priorities influence how we envision the organisation evolving. Our long-term direction points toward roles and outcomes that require growth beyond what we do today."

/-- score from axes/transformational_vision.py (single-anchor comparative). -/
def transformational_vision.score (ctx : EmbedCtx)
    (doc1_chunks doc2_chunks : List String) (name1 name2 : String) : AxisResult :=
  if doc1_chunks.isEmpty || doc2_chunks.isEmpty then
    { axis := "Transformational Vision", score := none, doc1 := name1, doc2 := name2,
      error := some "One or both documents have no chunks." }
  else
    let anchor_vector := ctx.encode TRANSFORMATIONAL_VISION_ANCHOR
    let emb1 := doc1_chunks.map ctx.encode
    let emb2 := doc2_chunks.map ctx.encode
    let sim1 := meanQ (emb1.map (fun e => ctx.cosine_similarity e anchor_vector))
    let sim2 := meanQ (emb2.map (fun e => ctx.cosine_similarity e anchor_vector))
    let relative_score := (sim1 - sim2) * 100
    { axis := "Transformational Vision", score := some (round2 relative_score),
      doc1 := name1, doc2 := name2,
      anchor := some "Future ambitions beyond current capabilities",
      method := some "single_anchor_comparative",
      chunks1 := some doc1_chunks.length, chunks2 := some doc2_chunks.length,
      interpretation := some "Positive: Doc1 more transformational language. Negative: Doc2 more transformational language. Near zero: Similar transformational emphasis. Measures language patterns, not strategic capacity." }

/-! ### axes/temporal_positioning.py -/

/-- The present-oriented anchor constant of axes/temporal_positioning.py. -/
def PRESENT_ANCHOR : String :=
  "Our current capabilities and ongoing work guide the priorities we address now. Existing processes and established practices form the basis for actions underway. We focus on what the organisation delivers today and the tasks in progress. Present commitments shape the immediate steps we take."

/-- The future-oriented anchor constant of axes/temporal_positioning.py. -/
def FUTURE_ANCHOR : String :=
  "We prepare for emerging possibilities that extend beyond current activity. Upcoming developments shape the direction we envision over time. Future goals influence how we anticipate the organisation evolving. Long-term priorities point toward capabilities we aim to develop."

/-- score from axes/temporal_positioning.py (differential two-anchor). -/
def temporal_positioning.score (ctx : EmbedCtx)
    (doc1_chunks doc2_chunks : List String) (name1 name2 : String) : AxisResult :=
  if doc1_chunks.isEmpty || doc2_chunks.isEmpty then
    { axis := "Temporal Positioning", score := none, doc1 := name1, doc2 := name2,
      error := some "One or both documents have no chunks." }
  else
    let present_vec := ctx.encode PRESENT_ANCHOR
    let future_vec := ctx.encode FUTURE_ANCHOR
    let emb1 := doc1_chunks.map ctx.encode
    let emb2 := doc2_chunks.map ctx.encode
    let doc1_to_present := meanQ (emb1.map (fun e => ctx.cosine_similarity e present_vec))
    let doc1_to_future := meanQ (emb1.map (fun e => ctx.cosine_similarity e future_vec))
    let doc1_emphasis := doc1_to_future - doc1_to_present
    let doc2_to_present := meanQ (emb2.map (fun e => ctx.cosine_similarity e present_vec))
    let doc2_to_future := meanQ (emb2.map (fun e => ctx.cosine_similarity e future_vec))
    let doc2_emphasis := doc2_to_future - doc2_to_present
    let relative_score := (doc1_emphasis - doc2_emphasis) * 100
    { axis := "Temporal Positioning", score := some (round2 relative_score),
      doc1 := name1, doc2 := name2,
      anchors := some "Present-focused vs Future-focused language",
      method := some "differential_two_anchor",
      chunks1 := some doc1_chunks.length, chunks2 := some doc2_chunks.length,
      interpretation := some "Positive: Doc1 more future-focused. Negative: Doc2 more future-focused. Near zero: Similar temporal emphasis. Measures language patterns, not strategic intent." }

/-! ### axes/thematic_similarity.py -/

/-- score from axes/thematic_similarity.py (anchorless pairwise). The
union of both chunk lists is embedded in one batch and split back; the
cross similarity matrix is mirrored row by row, and the pair list pairs
each chunk text with its matrix row, exactly as the nested enumerate loop
reads sim_matrix by index. Python list.sort is stable ascending, modelled
by mergeSort on the similarity component. -/
def thematic_similarity.score (ctx : EmbedCtx)
    (doc1_chunks doc2_chunks : List String) (name1 name2 : String) : AxisResult :=
  if doc1_chunks.isEmpty || doc2_chunks.isEmpty then
    { axis := "Thematic Similarity", score := none, doc1 := name1, doc2 := name2,
      error := some "One or both documents have no chunks." }
  else
    let all_chunks := doc1_chunks ++ doc2_chunks
    let embeddings := all_chunks.map ctx.encode
    let emb1 := embeddings.take doc1_chunks.length
    let emb2 := embeddings.drop doc1_chunks.length
    let sim_matrix := emb1.map (fun e1 => emb2.map (fun e2 => ctx.cosine_similarity e1 e2))
    let avg_score := meanQ sim_matrix.flatten * 100
    let pairs := ((doc1_chunks.zip sim_matrix).map (fun p =>
      (doc2_chunks.zip p.2).map (fun q => (p.1, q.1, q.2)))).flatten
    let sorted_pairs := pairs.mergeSort (fun a b => decide (a.2.2 ≤ b.2.2))
    let bottom5 := sorted_pairs.take 10
    let top5 := sorted_pairs.drop (sorted_pairs.length - 10)
    { axis := "Thematic Similarity", score := some (round2 avg_score),
      doc1 := name1, doc2 := name2,
      method := some "cosine_similarity",
      chunks1 := some doc1_chunks.length, chunks2 := some doc2_chunks.length,
      top_chunks := some top5, bottom_chunks := some bottom5 }

/-- The per-document quantity of the single-anchor and differential
strategies as the spec states it: the mean cosine similarity of every
chunk of a document against one anchor. -/
def singleAnchorMean (ctx : EmbedCtx) (anchor : String) (chunks : List String) : ℚ :=
  meanQ (chunks.map (fun c => ctx.cosine_similarity (ctx.encode c) (ctx.encode anchor)))

/-- The full cross cosine-similarity matrix between document 1 chunk
embeddings and document 2 chunk embeddings, as the spec states it. -/
def crossSimMatrix (ctx : EmbedCtx) (c1 c2 : List String) : List (List ℚ) :=
  (c1.map ctx.encode).map (fun e1 =>
    (c2.map ctx.encode).map (fun e2 => ctx.cosine_similarity e1 e2))

/-- The row-major list of (chunk1, chunk2, similarity) triples over the
cross matrix, in the nested-loop order of thematic_similarity.score. -/
def crossPairs (ctx : EmbedCtx) (c1 c2 : List String) :
    List (String × String × ℚ) :=
  ((c1.zip (crossSimMatrix ctx c1 c2)).map
    (fun p => (c2.zip p.2).map (fun q => (p.1, q.1, q.2)))).flatten

/-- The boolean ascending-by-similarity comparison used to sort pairs. -/
def pairLE (p q : String × String × ℚ) : Bool := decide (p.2.2 ≤ q.2.2)

/-! ### core/engine.py -/

/-- One record of axes/registry.json. -/
structure AxisDef where
  id : String
  label : String
  enabled : Bool
deriving DecidableEq

/-- load_registry from core/engine.py. Reading and JSON-decoding
registry.json is external; its outcome is the parameter: error models
FileNotFoundError or JSONDecodeError, both of which the source catches and
turns into an empty list. Otherwise only entries with a true enabled flag
are kept, in declared order. -/
def load_registry (regSource : Except String (List AxisDef)) : List AxisDef :=
  match regSource with
  | .error _ => []
  | .ok all_axes => all_axes.filter (fun a => a.enabled)

/-- A resolved axis strategy invocation: chunks1, chunks2, name1, name2 to
either a result dict or a raised exception message. -/
abbrev Strategy := List String → List String → String → String → Except String AxisResult

/-- The body of the per-axis loop of compare_documents: resolve the axis
module and call its score entry point (resolve bundles load_axis_module
with the call, since either may raise); on success the engine adds the id
and axis_name keys, on any exception it records a per-axis error entry and
continues. -/
def process_axis (resolve : String → Strategy) (chunks1 chunks2 : List String)
    (doc1_name doc2_name : String) (a : AxisDef) : AxisResult :=
  match resolve a.id chunks1 chunks2 doc1_name doc2_name with
  | .ok r => { r with id := some a.id, axis_name := some a.label }
  | .error e =>
    { axis := a.label, id := some a.id, score := none,
      doc1 := doc1_name, doc2 := doc2_name, error := some e }

/-- The comparison report built by compare_documents. The metadata block
(wall-clock timing, timestamp, hardware introspection) is external real
time and platform state, outside the shallow embedding; the claims below
do not depend on it. -/
structure Report where
  axis_results : List AxisResult
  doc1_name : String
  doc2_name : String
  chunks1_count : Option Nat := none
  chunks2_count : Option Nat := none
deriving DecidableEq

/-- The synthetic ALL entry appended when chunking.chunk_pdf raises. -/
def chunkingFailedEntry (doc1_name doc2_name e : String) : AxisResult :=
  { axis := "ALL", score := none, doc1 := doc1_name, doc2 := doc2_name,
    error := some ("Chunking failed: " ++ e) }

/-- The synthetic ALL entry appended when a document yields no chunks. -/
def noChunksEntry (doc1_name doc2_name : String) : AxisResult :=
  { axis := "ALL", score := none, doc1 := doc1_name, doc2 := doc2_name,
    error := some "One or both documents produced no valid chunks" }

/-- The synthetic NONE entry appended when no axes are enabled. -/
def noAxesEntry (doc1_name doc2_name : String) : AxisResult :=
  { axis := "NONE", score := none, doc1 := doc1_name, doc2 := doc2_name,
    error := some "No axes enabled in registry.json" }

/-- compare_documents from core/engine.py. chunkRes1 and chunkRes2 are the
outcomes of chunking.chunk_pdf on each document (error models an exception
caught by the engine); regSource is the registry.json read outcome;
resolve is the dynamic axis-module resolution; document names are derived
from the paths by external os.path code and passed directly. -/
def compare_documents (chunkRes1 chunkRes2 : Except String (List String))
    (regSource : Except String (List AxisDef)) (resolve : String → Strategy)
    (doc1_name doc2_name : String) : Report :=
  match chunkRes1, chunkRes2 with
  | .error e, _ =>
    { axis_results := [chunkingFailedEntry doc1_name doc2_name e],
      doc1_name := doc1_name, doc2_name := doc2_name }
  | .ok _, .error e =>
    { axis_results := [chunkingFailedEntry doc1_name doc2_name e],
      doc1_name := doc1_name, doc2_name := doc2_name }
  | .ok chunks1, .ok chunks2 =>
    if chunks1.isEmpty || chunks2.isEmpty then
      { axis_results := [noChunksEntry doc1_name doc2_name],
        doc1_name := doc1_name, doc2_name := doc2_name }
    else
      let axes := load_registry regSource
      if axes.isEmpty then
        { axis_results := [noAxesEntry doc1_name doc2_name],
          doc1_name := doc1_name, doc2_name := doc2_name,
          chunks1_count := some chunks1.length,
          chunks2_count := some chunks2.length }
      else
        { axis_results :=
            axes.map (process_axis resolve chunks1 chunks2 doc1_name doc2_name),
          doc1_name := doc1_name, doc2_name := doc2_name,
          chunks1_count := some chunks1.length,
          chunks2_count := some chunks2.length }

/-! ### core/embedding.py -/

/-- True when sub occurs as a substring of s; models the Python in
operator on strings, at the character-list level. -/
def containsSub (s sub : String) : Bool :=
  (List.range (s.data.length + 1)).any
    (fun i => List.isPrefixOf sub.data (s.data.drop i))

/-- The two error kinds raised by get_model on a failed initialization:
ConnectionError when the lowercased exception text contains connection,
RuntimeError otherwise. -/
inductive LoadError where
  | connectionError (msg : String)
  | runtimeError (msg : String)
deriving DecidableEq

/-- The observable outcome of one get_model call: the returned instance or
raised error, the value of the module-global cache after the call, and
whether this call attempted to load the model. -/
structure GetModelStep (Inst : Type) where
  result : Except LoadError Inst
  newState : Option Inst
  loadAttempted : Bool

/-- get_model from core/embedding.py as a state transition on the
module-global cache. loadOutcome is the result the external
SentenceTransformer constructor would produce if invoked during this call.
When the cache is set the cached instance is returned with no load
attempt; when it is empty a load is attempted, and on failure the raised
error is wrapped while the cache stays empty (the assignment never
completes). -/
def get_model {Inst : Type} (loadOutcome : Except String Inst)
    (state : Option Inst) : GetModelStep Inst :=
  match state with
  | some m => ⟨.ok m, some m, false⟩
  | none =>
    match loadOutcome with
    | .ok m => ⟨.ok m, some m, true⟩
    | .error e =>
      if containsSub (pyLower e) "connection" then
        ⟨.error (.connectionError
          ("Failed to download model. Check internet connection.\nModel: "
            ++ EMBEDDING_MODEL_NAME ++ "\nError: " ++ e)), none, true⟩
      else
        ⟨.error (.runtimeError ("Failed to load embedding model: " ++ e)),
          none, true⟩

/-- A sequence of get_model calls threading the module-global cache, with
the external load outcome each call would see. -/
def runGetModel {Inst : Type} (outcomes : List (Except String Inst))
    (state : Option Inst) : List (GetModelStep Inst) :=
  match outcomes with
  | [] => []
  | o :: rest =>
    let st := get_model o state
    st :: runGetModel rest st.newState

/-! ## Helper lemmas -/

/-- Round-half-even is an odd function: negating the input negates the
output exactly, including at ties, because the even integer among n and
n + 1 negates to the even integer among the mirrored pair. -/
theorem roundHalfEven_neg (q : ℚ) : roundHalfEven (-q) = -roundHalfEven q := by
  have h0 : (0 : ℚ) ≤ q - ⌊q⌋ := sub_nonneg.mpr (Int.floor_le q)
  have h1 : q - ⌊q⌋ < 1 := by
    have := Int.lt_floor_add_one q
    linarith
  by_cases hz : q - (⌊q⌋ : ℚ) = 0
  · have hq : q = ((⌊q⌋ : ℤ) : ℚ) := by linarith
    have hfneg : ⌊-q⌋ = -⌊q⌋ := by
      rw [hq, ← Int.cast_neg, Int.floor_intCast, Int.floor_intCast]
    simp only [roundHalfEven, hfneg]
    rw [if_pos, if_pos]
    · rw [hq]
      norm_num
    · rw [hq]; push_cast; norm_num
  · have hz2 : 0 < q - (⌊q⌋ : ℚ) := lt_of_le_of_ne h0 (Ne.symm hz)
    have hfneg : ⌊-q⌋ = -⌊q⌋ - 1 := by
      rw [Int.floor_eq_iff]
      push_cast
      constructor <;> linarith
    have hrneg : -q - ((⌊-q⌋ : ℤ) : ℚ) = 1 - (q - ⌊q⌋) := by
      rw [hfneg]; push_cast; ring
    simp only [roundHalfEven]
    rw [hrneg, hfneg]
    rcases lt_trichotomy (q - (⌊q⌋ : ℚ)) (1/2) with hc | hc | hc
    · have hA : ¬ (1 - (q - (⌊q⌋ : ℚ)) < 1/2) := by linarith
      have hB : (1 : ℚ)/2 < 1 - (q - (⌊q⌋ : ℚ)) := by linarith
      rw [if_neg hA, if_pos hB, if_pos hc]
      ring
    · have hA : ¬ (1 - (q - (⌊q⌋ : ℚ)) < 1/2) := by rw [hc]; norm_num
      have hB : ¬ ((1 : ℚ)/2 < 1 - (q - (⌊q⌋ : ℚ))) := by rw [hc]; norm_num
      have hD : ¬ (q - (⌊q⌋ : ℚ) < 1/2) := by rw [hc]; norm_num
      have hE : ¬ ((1 : ℚ)/2 < q - (⌊q⌋ : ℚ)) := by rw [hc]; norm_num
      rw [if_neg hA, if_neg hB, if_neg hD, if_neg hE]
      by_cases he : Even ⌊q⌋
      · have hne : ¬ Even (-⌊q⌋ - 1) := by
          rw [Int.even_iff] at he ⊢
          omega
        rw [if_neg hne, if_pos he]
        ring
      · have hye : Even (-⌊q⌋ - 1) := by
          rw [Int.even_iff] at he ⊢
          omega
        rw [if_pos hye, if_neg he]
        ring
    · have hA : 1 - (q - (⌊q⌋ : ℚ)) < 1/2 := by linarith
      have hD : ¬ (q - (⌊q⌋ : ℚ) < 1/2) := by linarith
      rw [if_pos hA, if_neg hD, if_pos hc]
      ring

/-- Python round(x, 2) is odd: round2 of a negated value is the negated
round2 value, exactly. -/
theorem round2_neg (q : ℚ) : round2 (-q) = -round2 q := by
  unfold round2
  rw [show -q * 100 = -(q * 100) by ring, roundHalfEven_neg]
  push_cast
  ring

/-- Summing a pointwise sum of two maps splits into two sums. -/
theorem sum_map_add {β : Type} (l : List β) (f g : β → ℚ) :
    (l.map (fun b => f b + g b)).sum = (l.map f).sum + (l.map g).sum := by
  induction l with
  | nil => simp
  | cons b t ih => simp only [List.map_cons, List.sum_cons, ih]; ring

/-- Exchanging the two summation orders of a rectangular double sum. -/
theorem sum_map_swap {α β : Type} (f : α → β → ℚ) (l1 : List α) (l2 : List β) :
    (l1.map (fun a => (l2.map (fun b => f a b)).sum)).sum =
      (l2.map (fun b => (l1.map (fun a => f a b)).sum)).sum := by
  induction l1 with
  | nil =>
    simp only [List.map_nil, List.sum_nil]
    induction l2 with
    | nil => simp
    | cons b t ih => simp only [List.map_cons, List.sum_cons, ← ih]; simp
  | cons a t ih =>
    simp only [List.map_cons, List.sum_cons, ih, ← sum_map_add]

/-- The windows of the empty sentence list are empty. -/
theorem sentWindows_nil {α : Type} (k : Nat) : sentWindows k ([] : List α) = [] := by
  unfold sentWindows
  have h : (List.length ([] : List α) + k - 1) / k = 0 := by
    rcases Nat.eq_zero_or_pos k with rfl | hk
    · simp
    · simp only [List.length_nil, Nat.zero_add]
      exact Nat.div_eq_of_lt (by omega)
  rw [h]
  rfl

/-- The window count of a nonempty list is one more than that of its
k-dropped remainder. -/
theorem sentWindows_count {α : Type} (k : Nat) (hk : 0 < k) (l : List α)
    (hl : 1 ≤ l.length) :
    (l.length + k - 1) / k = (l.length - 1) / k + 1 := by
  have h : l.length + k - 1 = (l.length - 1) + k := by omega
  rw [h, Nat.add_div_right _ hk]

/-- For a positive step, sentWindows peels off the first window: the first
k sentences, then the windows of the k-dropped remainder. -/
theorem sentWindows_cons {α : Type} (k : Nat) (hk : 0 < k) (l : List α)
    (hl : l ≠ []) :
    sentWindows k l = l.take k :: sentWindows k (l.drop k) := by
  have hn : 1 ≤ l.length := List.length_pos.mpr hl
  have hm := sentWindows_count k hk l hn
  have hm2 : ((l.drop k).length + k - 1) / k = (l.length - 1) / k := by
    rw [List.length_drop]
    rcases le_or_lt l.length k with h | h
    · have h1 : l.length - k = 0 := by omega
      rw [h1, Nat.zero_add, Nat.div_eq_of_lt (by omega),
        Nat.div_eq_of_lt (by omega)]
    · have h2 : l.length - k + k - 1 = (l.length - k - 1) + k := by omega
      have h3 : l.length - 1 = (l.length - k - 1) + k := by omega
      rw [h2, h3, Nat.add_div_right _ hk]
  unfold sentWindows
  rw [hm, hm2, List.range_succ_eq_map, List.map_cons, List.map_map]
  congr 1
  · simp
  · apply List.map_congr_left
    intro i hi
    simp only [Function.comp_apply, List.drop_drop]
    congr 2
    rw [Nat.succ_mul]
    exact Nat.add_comm _ _

/-- For a positive step the windows concatenate back to the whole
sentence list: the windows partition it, in order, with no duplication. -/
theorem sentWindows_flatten {α : Type} (k : Nat) (hk : 0 < k) (l : List α) :
    (sentWindows k l).flatten = l := by
  have H : ∀ (n : Nat) (l : List α), l.length = n → (sentWindows k l).flatten = l := by
    intro n
    induction n using Nat.strong_induction_on with
    | _ n ih =>
      intro l hlen
      subst hlen
      rcases eq_or_ne l [] with rfl | hne
      · rw [sentWindows_nil]
        rfl
      · rw [sentWindows_cons k hk l hne, List.flatten_cons]
        have hlt : (l.drop k).length < l.length := by
          rw [List.length_drop]
          have h1 : 0 < l.length := List.length_pos.mpr hne
          omega
        rw [ih (l.drop k).length hlt (l.drop k) rfl, List.take_append_drop]
  exact H l.length l rfl

/-- Every window is nonempty and holds at most k sentences. -/
theorem sentWindows_mem {α : Type} (k : Nat) (hk : 0 < k) (l : List α)
    (w : List α) (hw : w ∈ sentWindows k l) : w ≠ [] ∧ w.length ≤ k := by
  unfold sentWindows at hw
  rw [List.mem_map] at hw
  obtain ⟨i, hi, rfl⟩ := hw
  rw [List.mem_range] at hi
  have hn : 0 < l.length := by
    by_contra h
    have h0 : l.length = 0 := by omega
    rw [h0] at hi
    have h1 : (0 + k - 1) / k = 0 := by
      rw [Nat.zero_add]
      exact Nat.div_eq_of_lt (by omega)
    omega
  have hik : i * k < l.length := by
    have h1 : i ≤ (l.length - 1) / k := by
      have hm := sentWindows_count k hk l (by omega)
      omega
    have h2 : i * k ≤ (l.length - 1) / k * k := Nat.mul_le_mul_right k h1
    have h3 : (l.length - 1) / k * k ≤ l.length - 1 := Nat.div_mul_le_self _ _
    omega
  constructor
  · apply List.length_pos.mp
    rw [List.length_take, List.length_drop, lt_min_iff]
    omega
  · rw [List.length_take]
    exact min_le_left _ _

/-- Every window other than the last holds exactly k sentences. -/
theorem sentWindows_full {α : Type} (k : Nat) (hk : 0 < k) (l : List α)
    (i : Nat) (w : List α) (hw : (sentWindows k l).get? i = some w)
    (hi : i + 1 < (sentWindows k l).length) : w.length = k := by
  unfold sentWindows at hw hi
  rw [List.length_map, List.length_range] at hi
  rw [List.get?_map, List.get?_range (by omega), Option.map_some'] at hw
  obtain rfl : (l.drop (i * k)).take k = w := Option.some.inj hw
  have hn : 0 < l.length := by
    by_contra h
    have h0 : l.length = 0 := by omega
    rw [h0] at hi
    have h1 : (0 + k - 1) / k = 0 := by
      rw [Nat.zero_add]
      exact Nat.div_eq_of_lt (by omega)
    omega
  have hm := sentWindows_count k hk l (by omega)
  have h1 : i + 1 ≤ (l.length - 1) / k := by omega
  have h2 : (i + 1) * k ≤ (l.length - 1) / k * k := Nat.mul_le_mul_right k h1
  have h3 : (l.length - 1) / k * k ≤ l.length - 1 := Nat.div_mul_le_self _ _
  have h5 : (i + 1) * k = i * k + k := by ring
  rw [List.length_take, List.length_drop]
  omega

/-- Summing a constant over a list multiplies it by the length. -/
theorem sum_const_nat {α : Type} (l : List α) (c : Nat) :
    (l.map (fun _ => c)).sum = l.length * c := by
  induction l with
  | nil => simp
  | cons a t ih =>
    simp only [List.map_cons, List.sum_cons, ih, List.length_cons]
    ring

/-- The batch embedding of the concatenated chunk lists splits back into
the two per-document embedding lists. -/
theorem batch_embeddings_split (ctx : EmbedCtx) (c1 c2 : List String) :
    ((c1 ++ c2).map ctx.encode).take c1.length = c1.map ctx.encode ∧
    ((c1 ++ c2).map ctx.encode).drop c1.length = c2.map ctx.encode := by
  have h := List.length_map c1 ctx.encode
  constructor
  · rw [List.map_append, ← h, List.take_left]
  · rw [List.map_append, ← h, List.drop_left]

/-- The score field of operational_grounding.score on nonempty inputs. -/
theorem og_score_field (ctx : EmbedCtx) (c1 c2 : List String) (n1 n2 : String)
    (h1 : c1 ≠ []) (h2 : c2 ≠ []) :
    (operational_grounding.score ctx c1 c2 n1 n2).score =
      some (round2 ((singleAnchorMean ctx OPERATIONAL_GROUNDING_ANCHOR c1 -
        singleAnchorMean ctx OPERATIONAL_GROUNDING_ANCHOR c2) * 100)) := by
  have e1 : c1.isEmpty = false := List.isEmpty_eq_false.mpr h1
  have e2 : c2.isEmpty = false := List.isEmpty_eq_false.mpr h2
  simp [operational_grounding.score, singleAnchorMean, e1, e2, List.map_map,
    Function.comp_def]

/-- The score field of transformational_vision.score on nonempty inputs. -/
theorem tv_score_field (ctx : EmbedCtx) (c1 c2 : List String) (n1 n2 : String)
    (h1 : c1 ≠ []) (h2 : c2 ≠ []) :
    (transformational_vision.score ctx c1 c2 n1 n2).score =
      some (round2 ((singleAnchorMean ctx TRANSFORMATIONAL_VISION_ANCHOR c1 -
        singleAnchorMean ctx TRANSFORMATIONAL_VISION_ANCHOR c2) * 100)) := by
  have e1 : c1.isEmpty = false := List.isEmpty_eq_false.mpr h1
  have e2 : c2.isEmpty = false := List.isEmpty_eq_false.mpr h2
  simp [transformational_vision.score, singleAnchorMean, e1, e2, List.map_map,
    Function.comp_def]

/-- The score field of temporal_positioning.score on nonempty inputs. -/
theorem tp_score_field (ctx : EmbedCtx) (c1 c2 : List String) (n1 n2 : String)
    (h1 : c1 ≠ []) (h2 : c2 ≠ []) :
    (temporal_positioning.score ctx c1 c2 n1 n2).score =
      some (round2
        (((singleAnchorMean ctx FUTURE_ANCHOR c1 -
           singleAnchorMean ctx PRESENT_ANCHOR c1) -
          (singleAnchorMean ctx FUTURE_ANCHOR c2 -
           singleAnchorMean ctx PRESENT_ANCHOR c2)) * 100)) := by
  have e1 : c1.isEmpty = false := List.isEmpty_eq_false.mpr h1
  have e2 : c2.isEmpty = false := List.isEmpty_eq_false.mpr h2
  simp [temporal_positioning.score, singleAnchorMean, e1, e2, List.map_map,
    Function.comp_def]

/-- thematic_similarity.score on nonempty inputs, with the batch
embeddings split back per document and the pair list and sort spelled out. -/
theorem thematic_score_eq (ctx : EmbedCtx) (c1 c2 : List String)
    (n1 n2 : String) (h1 : c1 ≠ []) (h2 : c2 ≠ []) :
    thematic_similarity.score ctx c1 c2 n1 n2 =
      { axis := "Thematic Similarity",
        score := some (round2 (meanQ (crossSimMatrix ctx c1 c2).flatten * 100)),
        doc1 := n1, doc2 := n2, method := some "cosine_similarity",
        chunks1 := some c1.length, chunks2 := some c2.length,
        top_chunks := some (((crossPairs ctx c1 c2).mergeSort pairLE).drop
          (((crossPairs ctx c1 c2).mergeSort pairLE).length - 10)),
        bottom_chunks := some (((crossPairs ctx c1 c2).mergeSort pairLE).take 10) } := by
  have e1 : c1.isEmpty = false := List.isEmpty_eq_false.mpr h1
  have e2 : c2.isEmpty = false := List.isEmpty_eq_false.mpr h2
  have ht := (batch_embeddings_split ctx c1 c2).1
  have hd := (batch_embeddings_split ctx c1 c2).2
  simp only [thematic_similarity.score, e1, e2, Bool.or_self]
  rw [if_neg Bool.false_ne_true, ht, hd]
  rfl

/-- Swapping the two documents transposes the cross matrix, which leaves
its mean unchanged when the similarity kernel is symmetric. -/
theorem crossSimMatrix_swap_mean (ctx : EmbedCtx) (c1 c2 : List String)
    (hsym : ∀ x y, ctx.cosine_similarity x y = ctx.cosine_similarity y x) :
    meanQ (crossSimMatrix ctx c2 c1).flatten =
      meanQ (crossSimMatrix ctx c1 c2).flatten := by
  have hsum : (crossSimMatrix ctx c2 c1).flatten.sum =
      (crossSimMatrix ctx c1 c2).flatten.sum := by
    unfold crossSimMatrix
    simp only [List.sum_flatten, List.map_map, Function.comp_def]
    rw [sum_map_swap
      (fun x y => ctx.cosine_similarity (ctx.encode x) (ctx.encode y)) c2 c1]
    apply congrArg List.sum
    apply List.map_congr_left
    intro y _
    apply congrArg List.sum
    apply List.map_congr_left
    intro x _
    exact hsym (ctx.encode x) (ctx.encode y)
  have hlen : (crossSimMatrix ctx c2 c1).flatten.length =
      (crossSimMatrix ctx c1 c2).flatten.length := by
    unfold crossSimMatrix
    simp only [List.length_flatten, List.map_map, Function.comp_def,
      List.length_map]
    rw [sum_const_nat, sum_const_nat]
    exact Nat.mul_comm _ _
  unfold meanQ
  rw [hsum, hlen]

/-! ## Claim theorems -/

/-- Claim C7: every chunk string returned by chunk_text has character
length at least the configured minimum chunk length MIN_CHUNK_LENGTH;
window chunks below the minimum are silently dropped by the length
filter, for any tokenizer, input text and chunk size. -/
theorem chunk_text_min_length (sent_tokenize : String → List String)
    (text : String) (chunk_size : Nat) (c : String)
    (hc : c ∈ chunk_text sent_tokenize text chunk_size) :
    MIN_CHUNK_LENGTH ≤ c.length := by
  unfold chunk_text at hc
  rw [List.mem_filterMap] at hc
  obtain ⟨w, _, hw⟩ := hc
  simp only [buildChunk] at hw
  split at hw
  · exact absurd hw (by simp)
  · split at hw
    · obtain rfl := Option.some.inj hw
      assumption
    · exact absurd hw (by simp)

/-- Claim C7 witness: a single sentence of 110 characters survives the
length filter, and the bound evaluates on it. -/
theorem chunk_text_min_length_witness :
    MIN_CHUNK_LENGTH ≤ String.length "xxxxxxxxxxxxxxxxxxxxxxxxxxxxxxxxxxxxxxxxxxxxxxxxxxxxxxxxxxxxxxxxxxxxxxxxxxxxxxxxxxxxxxxxxxxxxxxxxxxxxxxxxxxx" :=
  chunk_text_min_length (fun t => [t])
    "xxxxxxxxxxxxxxxxxxxxxxxxxxxxxxxxxxxxxxxxxxxxxxxxxxxxxxxxxxxxxxxxxxxxxxxxxxxxxxxxxxxxxxxxxxxxxxxxxxxxxxxxxxxx"
    4
    "xxxxxxxxxxxxxxxxxxxxxxxxxxxxxxxxxxxxxxxxxxxxxxxxxxxxxxxxxxxxxxxxxxxxxxxxxxxxxxxxxxxxxxxxxxxxxxxxxxxxxxxxxxxx"
    (by decide)

/-- Claim C8: chunk_text groups the tokenized sentence sequence into
consecutive nonoverlapping windows of chunk_size sentences whose
concatenation reproduces the original sentence sequence with no
duplication or reordering; every window is nonempty with at most
chunk_size sentences, and every window except possibly the last has
exactly chunk_size sentences. -/
theorem chunk_text_windows_partition (sent_tokenize : String → List String)
    (text : String) (chunk_size : Nat) (hk : 0 < chunk_size) :
    (sentWindows chunk_size (sent_tokenize text)).flatten = sent_tokenize text ∧
    chunk_text sent_tokenize text chunk_size =
      (sentWindows chunk_size (sent_tokenize text)).filterMap buildChunk ∧
    (∀ w ∈ sentWindows chunk_size (sent_tokenize text),
      w ≠ [] ∧ w.length ≤ chunk_size) ∧
    (∀ i w, (sentWindows chunk_size (sent_tokenize text)).get? i = some w →
      i + 1 < (sentWindows chunk_size (sent_tokenize text)).length →
      w.length = chunk_size) := by
  refine ⟨sentWindows_flatten _ hk _, rfl, ?_, ?_⟩
  · intro w hw
    exact sentWindows_mem _ hk _ w hw
  · intro i w hw hi
    exact sentWindows_full _ hk _ i w hw hi

/-- Claim C8 witness: with five sentences and the configured window of
four, the windows concatenate back to the original sequence. -/
theorem chunk_text_windows_partition_witness :
    (sentWindows 4 ["a", "b", "c", "d", "e"]).flatten = ["a", "b", "c", "d", "e"] :=
  (chunk_text_windows_partition (fun _ => ["a", "b", "c", "d", "e"]) "t" 4
    (by decide)).1

/-- Claim C6: with an empty chunk sequence on either side, every axis
score function returns immediately the error record with a null score and
the shared descriptive message, and the result does not depend on the
embedding context: no embedding work is attempted. -/
theorem axis_score_empty_guard (ctx ctx2 : EmbedCtx) (c1 c2 : List String)
    (n1 n2 : String) (h : c1 = [] ∨ c2 = []) :
    operational_grounding.score ctx c1 c2 n1 n2 =
      { axis := "Operational Grounding", score := none, doc1 := n1, doc2 := n2,
        error := some "One or both documents have no chunks." } ∧
    transformational_vision.score ctx c1 c2 n1 n2 =
      { axis := "Transformational Vision", score := none, doc1 := n1, doc2 := n2,
        error := some "One or both documents have no chunks." } ∧
    temporal_positioning.score ctx c1 c2 n1 n2 =
      { axis := "Temporal Positioning", score := none, doc1 := n1, doc2 := n2,
        error := some "One or both documents have no chunks." } ∧
    thematic_similarity.score ctx c1 c2 n1 n2 =
      { axis := "Thematic Similarity", score := none, doc1 := n1, doc2 := n2,
        error := some "One or both documents have no chunks." } ∧
    operational_grounding.score ctx c1 c2 n1 n2 =
      operational_grounding.score ctx2 c1 c2 n1 n2 ∧
    transformational_vision.score ctx c1 c2 n1 n2 =
      transformational_vision.score ctx2 c1 c2 n1 n2 ∧
    temporal_positioning.score ctx c1 c2 n1 n2 =
      temporal_positioning.score ctx2 c1 c2 n1 n2 ∧
    thematic_similarity.score ctx c1 c2 n1 n2 =
      thematic_similarity.score ctx2 c1 c2 n1 n2 := by
  have hb : (c1.isEmpty || c2.isEmpty) = true := by
    rcases h with rfl | rfl <;> simp
  refine ⟨?_, ?_, ?_, ?_, ?_, ?_, ?_, ?_⟩ <;>
    simp [operational_grounding.score, transformational_vision.score,
      temporal_positioning.score, thematic_similarity.score, hb]

/-- Claim C6 witness: the guard evaluates on an empty first document. -/
theorem axis_score_empty_guard_witness :
    operational_grounding.score ⟨fun _ => [1], fun _ _ => 1⟩ [] ["c"] "A" "B" =
      { axis := "Operational Grounding", score := none, doc1 := "A", doc2 := "B",
        error := some "One or both documents have no chunks." } :=
  (axis_score_empty_guard ⟨fun _ => [1], fun _ _ => 1⟩ ⟨fun _ => [2], fun _ _ => 0⟩
    [] ["c"] "A" "B" (Or.inl rfl)).1

/-- Claim C9: a missing or malformed registry source yields the empty
axis list without failing, and when the loaded registry has no enabled
axes compare_documents returns a report whose axis_results is exactly one
synthetic NONE entry with a null score and the explanatory error. -/
theorem load_registry_soft_failure :
    (∀ e : String, load_registry (Except.error e) = []) ∧
    (∀ (c1 c2 : List String) (reg : Except String (List AxisDef))
      (resolve : String → Strategy) (n1 n2 : String),
      c1 ≠ [] → c2 ≠ [] → load_registry reg = [] →
      (compare_documents (Except.ok c1) (Except.ok c2) reg resolve n1 n2).axis_results =
        [{ axis := "NONE", score := none, doc1 := n1, doc2 := n2,
           error := some "No axes enabled in registry.json" }]) := by
  constructor
  · intro e
    rfl
  · intro c1 c2 reg resolve n1 n2 h1 h2 hreg
    simp [compare_documents, List.isEmpty_eq_false.mpr h1,
      List.isEmpty_eq_false.mpr h2, hreg, noAxesEntry]

/-- Claim C9 witness: an enabled-entry-free registry read produces the
single synthetic NONE entry. -/
theorem load_registry_soft_failure_witness :
    (compare_documents (Except.ok ["a"]) (Except.ok ["b"]) (Except.ok [])
      (fun _ => fun _ _ _ _ => Except.error "unused") "A" "B").axis_results =
      [{ axis := "NONE", score := none, doc1 := "A", doc2 := "B",
         error := some "No axes enabled in registry.json" }] :=
  load_registry_soft_failure.2 ["a"] ["b"] (Except.ok [])
    (fun _ => fun _ _ _ _ => Except.error "unused") "A" "B"
    (by decide) (by decide) rfl

/-- Claim C10 counterexample: with the cache empty, a first get_model
call whose load fails raises and leaves the cache empty, and the next
call attempts the load again, so a load IS attempted again after a
failed initialization, contrary to the claim. -/
theorem get_model_retries_after_failed_load :
    ((runGetModel [Except.error "no internet connection", Except.ok 7]
        (none : Option Nat)).map (fun st => st.loadAttempted) = [true, true]) ∧
    ((runGetModel [Except.error "no internet connection", Except.ok 7]
        (none : Option Nat)).map (fun st => st.result.isOk) = [false, true]) ∧
    (get_model (Except.error "no internet connection")
        (none : Option Nat)).newState = none :=
  ⟨rfl, rfl, rfl⟩

/-- Claim C10 amended: after a successful initialization every later call
returns the same cached instance without attempting a load; after a
failed initialization the cache remains empty and the call reports a load
attempt, so the next call will try to load again. -/
theorem get_model_load_once_after_success {Inst : Type}
    (o : Except String Inst) (m : Inst) (e : String) :
    get_model o (some m) = ⟨Except.ok m, some m, false⟩ ∧
    (∀ (outcomes : List (Except String Inst)) (st : GetModelStep Inst),
      st ∈ runGetModel outcomes (some m) →
      st.result = Except.ok m ∧ st.newState = some m ∧ st.loadAttempted = false) ∧
    (get_model (Except.error e) (none : Option Inst)).newState = none ∧
    (get_model (Except.error e) (none : Option Inst)).loadAttempted = true := by
  refine ⟨rfl, ?_, ?_, ?_⟩
  · intro outcomes
    induction outcomes with
    | nil =>
      intro st h
      simp [runGetModel] at h
    | cons o2 rest ih =>
      intro st h
      rcases List.mem_cons.mp h with rfl | h2
      · exact ⟨rfl, rfl, rfl⟩
      · exact ih st h2
  · cases hc : containsSub (pyLower e) "connection" <;> simp [get_model, hc]
  · cases hc : containsSub (pyLower e) "connection" <;> simp [get_model, hc]

/-- Claim C10 amended witness: the singleton behavior evaluates at a
concrete successful state and a concrete failed load. -/
theorem get_model_load_once_after_success_witness :
    (get_model (Except.ok (9 : Nat)) (some 5) = ⟨Except.ok 5, some 5, false⟩) ∧
    ((⟨Except.ok 5, some 5, false⟩ : GetModelStep Nat).loadAttempted = false) ∧
    (get_model (Except.error "boom") (none : Option Nat)).newState = none := by
  have h := get_model_load_once_after_success (Except.ok (9 : Nat)) 5 "boom"
  have h2 := h.2.1 [Except.error "x"] ⟨Except.ok 5, some 5, false⟩ (List.Mem.head _)
  exact ⟨h.1, h2.2.2, h.2.2.1⟩

/-- Claim C2: for nonempty chunk sequences, both single-anchor
comparative axes return score = (mean cosine similarity of document 1
chunk embeddings to the anchor embedding minus the same mean for
document 2) times 100, rounded to two decimal places. -/
theorem single_anchor_comparative_formula (ctx : EmbedCtx)
    (c1 c2 : List String) (n1 n2 : String) (h1 : c1 ≠ []) (h2 : c2 ≠ []) :
    (operational_grounding.score ctx c1 c2 n1 n2).score =
      some (round2 ((singleAnchorMean ctx OPERATIONAL_GROUNDING_ANCHOR c1 -
        singleAnchorMean ctx OPERATIONAL_GROUNDING_ANCHOR c2) * 100)) ∧
    (transformational_vision.score ctx c1 c2 n1 n2).score =
      some (round2 ((singleAnchorMean ctx TRANSFORMATIONAL_VISION_ANCHOR c1 -
        singleAnchorMean ctx TRANSFORMATIONAL_VISION_ANCHOR c2) * 100)) :=
  ⟨og_score_field ctx c1 c2 n1 n2 h1 h2, tv_score_field ctx c1 c2 n1 n2 h1 h2⟩

/-- Claim C2 witness: the formula holds at a concrete embedding context
on concrete singleton documents. -/
theorem single_anchor_comparative_formula_witness :
    (operational_grounding.score ⟨fun _ => [1], fun _ _ => (1 : ℚ)/2⟩
      ["a"] ["b"] "A" "B").score =
      some (round2
        ((singleAnchorMean ⟨fun _ => [1], fun _ _ => (1 : ℚ)/2⟩
            OPERATIONAL_GROUNDING_ANCHOR ["a"] -
          singleAnchorMean ⟨fun _ => [1], fun _ _ => (1 : ℚ)/2⟩
            OPERATIONAL_GROUNDING_ANCHOR ["b"]) * 100)) :=
  (single_anchor_comparative_formula ⟨fun _ => [1], fun _ _ => (1 : ℚ)/2⟩
    ["a"] ["b"] "A" "B" (by decide) (by decide)).1

/-- Claim C3: for nonempty chunk sequences the differential two-anchor
axis computes, per document, emphasis = mean similarity to the future
anchor minus mean similarity to the present anchor, and returns
score = (emphasis of document 1 minus emphasis of document 2) times 100,
rounded to two decimal places. -/
theorem differential_two_anchor_formula (ctx : EmbedCtx)
    (c1 c2 : List String) (n1 n2 : String) (h1 : c1 ≠ []) (h2 : c2 ≠ []) :
    (temporal_positioning.score ctx c1 c2 n1 n2).score =
      some (round2
        (((singleAnchorMean ctx FUTURE_ANCHOR c1 -
           singleAnchorMean ctx PRESENT_ANCHOR c1) -
          (singleAnchorMean ctx FUTURE_ANCHOR c2 -
           singleAnchorMean ctx PRESENT_ANCHOR c2)) * 100)) :=
  tp_score_field ctx c1 c2 n1 n2 h1 h2

/-- Claim C3 witness: the formula holds at a concrete embedding context
on concrete singleton documents. -/
theorem differential_two_anchor_formula_witness :
    (temporal_positioning.score ⟨fun _ => [1], fun _ _ => (1 : ℚ)/2⟩
      ["a"] ["b"] "A" "B").score =
      some (round2
        (((singleAnchorMean ⟨fun _ => [1], fun _ _ => (1 : ℚ)/2⟩
             FUTURE_ANCHOR ["a"] -
           singleAnchorMean ⟨fun _ => [1], fun _ _ => (1 : ℚ)/2⟩
             PRESENT_ANCHOR ["a"]) -
          (singleAnchorMean ⟨fun _ => [1], fun _ _ => (1 : ℚ)/2⟩
             FUTURE_ANCHOR ["b"] -
           singleAnchorMean ⟨fun _ => [1], fun _ _ => (1 : ℚ)/2⟩
             PRESENT_ANCHOR ["b"])) * 100)) :=
  differential_two_anchor_formula ⟨fun _ => [1], fun _ _ => (1 : ℚ)/2⟩
    ["a"] ["b"] "A" "B" (by decide) (by decide)

/-- Claim C4: for nonempty chunk sequences the anchorless pairwise axis
returns score = mean of the full cross cosine-similarity matrix times
100, rounded to two decimal places, and returns the 10 lowest-similarity
pairs (the first 10 of the ascending sort of all pairs) and the 10
highest-similarity pairs (the last 10), both sorted ascending: the sort
is a permutation of all cross pairs that is pairwise nondecreasing in
similarity. -/
theorem anchorless_pairwise_formula (ctx : EmbedCtx) (c1 c2 : List String)
    (n1 n2 : String) (h1 : c1 ≠ []) (h2 : c2 ≠ []) :
    (thematic_similarity.score ctx c1 c2 n1 n2).score =
      some (round2 (meanQ (crossSimMatrix ctx c1 c2).flatten * 100)) ∧
    (thematic_similarity.score ctx c1 c2 n1 n2).bottom_chunks =
      some (((crossPairs ctx c1 c2).mergeSort pairLE).take 10) ∧
    (thematic_similarity.score ctx c1 c2 n1 n2).top_chunks =
      some (((crossPairs ctx c1 c2).mergeSort pairLE).drop
        (((crossPairs ctx c1 c2).mergeSort pairLE).length - 10)) ∧
    ((crossPairs ctx c1 c2).mergeSort pairLE).Perm (crossPairs ctx c1 c2) ∧
    List.Pairwise (fun p q : String × String × ℚ => p.2.2 ≤ q.2.2)
      ((crossPairs ctx c1 c2).mergeSort pairLE) := by
  have heq := thematic_score_eq ctx c1 c2 n1 n2 h1 h2
  refine ⟨?_, ?_, ?_, List.mergeSort_perm _ _, ?_⟩
  · rw [heq]
  · rw [heq]
  · rw [heq]
  · have htrans : ∀ a b c : String × String × ℚ,
        pairLE a b = true → pairLE b c = true → pairLE a c = true := by
      intro a b c hab hbc
      simp only [pairLE, decide_eq_true_eq] at hab hbc ⊢
      exact le_trans hab hbc
    have htotal : ∀ a b : String × String × ℚ,
        (pairLE a b || pairLE b a) = true := by
      intro a b
      simp only [pairLE, Bool.or_eq_true, decide_eq_true_eq]
      exact le_total _ _
    have hs := List.sorted_mergeSort htrans htotal (crossPairs ctx c1 c2)
    refine hs.imp ?_
    intro a b hab
    simpa only [pairLE, decide_eq_true_eq] using hab

/-- Claim C4 witness: the mean formula holds at a concrete embedding
context on concrete singleton documents. -/
theorem anchorless_pairwise_formula_witness :
    (thematic_similarity.score ⟨fun _ => [1], fun _ _ => (3 : ℚ)/4⟩
      ["a"] ["b"] "A" "B").score =
      some (round2 (meanQ (crossSimMatrix ⟨fun _ => [1], fun _ _ => (3 : ℚ)/4⟩
        ["a"] ["b"]).flatten * 100)) :=
  (anchorless_pairwise_formula ⟨fun _ => [1], fun _ _ => (3 : ℚ)/4⟩
    ["a"] ["b"] "A" "B" (by decide) (by decide)).1

/-- Claim C5: with fixed embeddings and nonempty chunk sequences,
swapping the two documents exactly negates the rounded score of the
single-anchor and differential axes (round-half-even is odd, so the
negation is exact, in particular within rounding tolerance), and leaves
the anchorless pairwise mean score unchanged when the similarity kernel
is symmetric, as cosine similarity is. -/
theorem axis_swap_symmetry (ctx : EmbedCtx) (c1 c2 : List String)
    (n1 n2 : String) (h1 : c1 ≠ []) (h2 : c2 ≠ [])
    (hsym : ∀ x y, ctx.cosine_similarity x y = ctx.cosine_similarity y x) :
    (operational_grounding.score ctx c2 c1 n2 n1).score =
      (operational_grounding.score ctx c1 c2 n1 n2).score.map (fun q => -q) ∧
    (transformational_vision.score ctx c2 c1 n2 n1).score =
      (transformational_vision.score ctx c1 c2 n1 n2).score.map (fun q => -q) ∧
    (temporal_positioning.score ctx c2 c1 n2 n1).score =
      (temporal_positioning.score ctx c1 c2 n1 n2).score.map (fun q => -q) ∧
    (thematic_similarity.score ctx c2 c1 n2 n1).score =
      (thematic_similarity.score ctx c1 c2 n1 n2).score := by
  refine ⟨?_, ?_, ?_, ?_⟩
  · rw [og_score_field ctx c2 c1 n2 n1 h2 h1,
      og_score_field ctx c1 c2 n1 n2 h1 h2, Option.map_some']
    apply congrArg
    rw [show (singleAnchorMean ctx OPERATIONAL_GROUNDING_ANCHOR c2 -
        singleAnchorMean ctx OPERATIONAL_GROUNDING_ANCHOR c1) * 100 =
      -((singleAnchorMean ctx OPERATIONAL_GROUNDING_ANCHOR c1 -
        singleAnchorMean ctx OPERATIONAL_GROUNDING_ANCHOR c2) * 100) by ring]
    exact round2_neg _
  · rw [tv_score_field ctx c2 c1 n2 n1 h2 h1,
      tv_score_field ctx c1 c2 n1 n2 h1 h2, Option.map_some']
    apply congrArg
    rw [show (singleAnchorMean ctx TRANSFORMATIONAL_VISION_ANCHOR c2 -
        singleAnchorMean ctx TRANSFORMATIONAL_VISION_ANCHOR c1) * 100 =
      -((singleAnchorMean ctx TRANSFORMATIONAL_VISION_ANCHOR c1 -
        singleAnchorMean ctx TRANSFORMATIONAL_VISION_ANCHOR c2) * 100) by ring]
    exact round2_neg _
  · rw [tp_score_field ctx c2 c1 n2 n1 h2 h1,
      tp_score_field ctx c1 c2 n1 n2 h1 h2, Option.map_some']
    apply congrArg
    rw [show ((singleAnchorMean ctx FUTURE_ANCHOR c2 -
        singleAnchorMean ctx PRESENT_ANCHOR c2) -
        (singleAnchorMean ctx FUTURE_ANCHOR c1 -
        singleAnchorMean ctx PRESENT_ANCHOR c1)) * 100 =
      -(((singleAnchorMean ctx FUTURE_ANCHOR c1 -
        singleAnchorMean ctx PRESENT_ANCHOR c1) -
        (singleAnchorMean ctx FUTURE_ANCHOR c2 -
        singleAnchorMean ctx PRESENT_ANCHOR c2)) * 100) by ring]
    exact round2_neg _
  · rw [thematic_score_eq ctx c2 c1 n2 n1 h2 h1,
      thematic_score_eq ctx c1 c2 n1 n2 h1 h2]
    simp only
    rw [crossSimMatrix_swap_mean ctx c1 c2 hsym]

/-- Claim C5 witness: the symmetry evaluates at a constant (hence
symmetric) similarity kernel on singleton documents. -/
theorem axis_swap_symmetry_witness :
    (operational_grounding.score ⟨fun _ => [1], fun _ _ => (1 : ℚ)/2⟩
      ["b"] ["a"] "B" "A").score =
      (operational_grounding.score ⟨fun _ => [1], fun _ _ => (1 : ℚ)/2⟩
        ["a"] ["b"] "A" "B").score.map (fun q => -q) :=
  (axis_swap_symmetry ⟨fun _ => [1], fun _ _ => (1 : ℚ)/2⟩ ["a"] ["b"] "A" "B"
    (by decide) (by decide) (fun _ _ => rfl)).1

/-- Claim C1: when both chunkings succeed with at least one chunk and
the registry has at least one enabled axis, axis_results is exactly the
registry-ordered map of per-axis processing — one entry per enabled axis,
a success entry or a per-axis error entry, each carrying its axis id —
and each entry depends only on the resolution of its own axis, so one
axis failing cannot remove or change the entries of the other axes; in
the two short-circuit cases (zero chunks, or no enabled axes) the list
is exactly one synthetic entry. -/
theorem compare_documents_axis_results_invariant (c1 c2 : List String)
    (reg : Except String (List AxisDef)) (resolve : String → Strategy)
    (n1 n2 : String) (h1 : c1 ≠ []) (h2 : c2 ≠ [])
    (hax : load_registry reg ≠ []) :
    (compare_documents (Except.ok c1) (Except.ok c2) reg resolve n1 n2).axis_results =
      (load_registry reg).map (process_axis resolve c1 c2 n1 n2) ∧
    (compare_documents (Except.ok c1) (Except.ok c2) reg resolve n1 n2).axis_results.length =
      (load_registry reg).length ∧
    (∀ a ∈ load_registry reg, (process_axis resolve c1 c2 n1 n2 a).id = some a.id) ∧
    (∀ resolve2 : String → Strategy, ∀ a : AxisDef,
      resolve a.id = resolve2 a.id →
      process_axis resolve c1 c2 n1 n2 a = process_axis resolve2 c1 c2 n1 n2 a) ∧
    (∀ d1 d2 : List String, d1 = [] ∨ d2 = [] →
      (compare_documents (Except.ok d1) (Except.ok d2) reg resolve n1 n2).axis_results =
        [noChunksEntry n1 n2]) ∧
    (∀ reg2 : Except String (List AxisDef), load_registry reg2 = [] →
      (compare_documents (Except.ok c1) (Except.ok c2) reg2 resolve n1 n2).axis_results =
        [noAxesEntry n1 n2]) := by
  have e1 : c1.isEmpty = false := List.isEmpty_eq_false.mpr h1
  have e2 : c2.isEmpty = false := List.isEmpty_eq_false.mpr h2
  have eax : (load_registry reg).isEmpty = false := List.isEmpty_eq_false.mpr hax
  refine ⟨?_, ?_, ?_, ?_, ?_, ?_⟩
  · simp [compare_documents, e1, e2, eax]
  · simp [compare_documents, e1, e2, eax]
  · intro a ha
    cases hres : resolve a.id c1 c2 n1 n2 <;> simp [process_axis, hres]
  · intro resolve2 a hres
    unfold process_axis
    rw [hres]
  · intro d1 d2 hd
    have hb : (d1.isEmpty || d2.isEmpty) = true := by
      rcases hd with rfl | rfl <;> simp
    simp [compare_documents, hb]
  · intro reg2 hreg2
    simp [compare_documents, e1, e2, hreg2]

/-- Claim C1 witness: the per-axis invariant evaluates on a registry
with one enabled axis whose strategy resolution fails. -/
theorem compare_documents_axis_results_invariant_witness :
    (compare_documents (Except.ok ["a"]) (Except.ok ["b"])
      (Except.ok [⟨"thematic_similarity", "Thematic Similarity", true⟩])
      (fun _ => fun _ _ _ _ => Except.error "boom") "A" "B").axis_results.length =
      (load_registry
        (Except.ok [⟨"thematic_similarity", "Thematic Similarity", true⟩])).length :=
  (compare_documents_axis_results_invariant ["a"] ["b"]
    (Except.ok [⟨"thematic_similarity", "Thematic Similarity", true⟩])
    (fun _ => fun _ _ _ _ => Except.error "boom") "A" "B"
    (by decide) (by decide) (by decide)).2.1

end Rataitosk
